import Mathlib

/-!
Verification of the GW3099-2024 repository: the `hgrad` anisotropic
head-gradient calculation and the CHD boundary-condition / plotting logic of
`exercises/xt3d/xt3d-ex0-unstructured-grid.ipynb`, the notebook's mesh-building
workflow, and the `data/parallel/slurm.batch` job script.

The numeric code is embedded over exact real arithmetic (`ℝ`); the notebook
workflow and the batch script are embedded as explicit data structures
transcribed from the source files.
-/

namespace GW3099

/-! ## The `hgrad` function (notebook cell defining `hgrad`)

Python source:
```
def hgrad(k, k22, angle1, qx, qy):
    angle = angle1 * math.pi / 180
    kxx = k * math.cos(angle) ** 2 + k22 * math.sin(angle) ** 2
    kyy = k * math.sin(angle) ** 2 + k22 * math.cos(angle) ** 2
    kxy = (k - k22) * math.sin(angle) * math.cos(angle)
    kyx = kxy
    det = kxx * kyy - kxy * kyx
    kinvxx = kyy / det
    kinvxy = -kxy / det
    kinvyx = -kyx / det
    kinvyy = kxx / det
    hgradx = -kinvxx * qx - kinvxy * qy
    hgrady = -kinvyx * qx - kinvyy * qy
    return hgradx, hgrady
```
-/

/-- `angle = angle1 * math.pi / 180` -/
noncomputable def angleOf (angle1 : ℝ) : ℝ := angle1 * Real.pi / 180

/-- `kxx = k * cos(angle)**2 + k22 * sin(angle)**2` -/
noncomputable def kxx (k k22 angle1 : ℝ) : ℝ :=
  k * Real.cos (angleOf angle1) ^ 2 + k22 * Real.sin (angleOf angle1) ^ 2

/-- `kyy = k * sin(angle)**2 + k22 * cos(angle)**2` -/
noncomputable def kyy (k k22 angle1 : ℝ) : ℝ :=
  k * Real.sin (angleOf angle1) ^ 2 + k22 * Real.cos (angleOf angle1) ^ 2

/-- `kxy = (k - k22) * sin(angle) * cos(angle)` -/
noncomputable def kxy (k k22 angle1 : ℝ) : ℝ :=
  (k - k22) * Real.sin (angleOf angle1) * Real.cos (angleOf angle1)

/-- `kyx = kxy` -/
noncomputable def kyx (k k22 angle1 : ℝ) : ℝ := kxy k k22 angle1

/-- `det = kxx * kyy - kxy * kyx` -/
noncomputable def detK (k k22 angle1 : ℝ) : ℝ :=
  kxx k k22 angle1 * kyy k k22 angle1 - kxy k k22 angle1 * kyx k k22 angle1

/-- The pair `(hgradx, hgrady)` returned by the notebook's `hgrad`. -/
noncomputable def hgrad (k k22 angle1 qx qy : ℝ) : ℝ × ℝ :=
  let det := detK k k22 angle1
  let kinvxx := kyy k k22 angle1 / det
  let kinvxy := -kxy k k22 angle1 / det
  let kinvyx := -kyx k k22 angle1 / det
  let kinvyy := kxx k k22 angle1 / det
  (-kinvxx * qx - kinvxy * qy, -kinvyx * qx - kinvyy * qy)

/-- Darcy's Law `q = -K grad(h)` written with the tensor components computed
by `hgrad`: `(gx, gy)` solves the 2x2 system for flux `(qx, qy)`. -/
def darcySolution (k k22 angle1 qx qy gx gy : ℝ) : Prop :=
  qx = -(kxx k k22 angle1 * gx + kxy k k22 angle1 * gy) ∧
  qy = -(kyx k k22 angle1 * gx + kyy k k22 angle1 * gy)

/-- Over exact reals the determinant computed inside `hgrad` collapses to
`k * k22`, by `sin² + cos² = 1`. -/
theorem detK_eq (k k22 angle1 : ℝ) : detK k k22 angle1 = k * k22 := by
  have h := Real.sin_sq_add_cos_sq (angleOf angle1)
  simp only [detK, kxx, kyy, kxy, kyx]
  set s := Real.sin (angleOf angle1)
  set c := Real.cos (angleOf angle1)
  linear_combination (k * k22 * (s ^ 2 + c ^ 2 + 1)) * h

/-- The components returned by `hgrad`, written over the common denominator
`detK`.  This is pure rearrangement of the code's `kinv**` expressions. -/
theorem hgrad_fst (k k22 angle1 qx qy : ℝ) :
    (hgrad k k22 angle1 qx qy).1 =
      (kxy k k22 angle1 * qy - kyy k k22 angle1 * qx) / detK k k22 angle1 := by
  simp only [hgrad]
  ring

theorem hgrad_snd (k k22 angle1 qx qy : ℝ) :
    (hgrad k k22 angle1 qx qy).2 =
      (kyx k k22 angle1 * qx - kxx k k22 angle1 * qy) / detK k k22 angle1 := by
  simp only [hgrad]
  ring

/-- C2: for `k > 0`, `k22 > 0` and any `angle1`, the determinant computed by
`hgrad` equals `k * k22` over exact reals and in particular is nonzero, so
none of the four divisions by `det` divides by zero. -/
theorem hgrad_det_nonzero (k k22 angle1 : ℝ) (hk : 0 < k) (hk22 : 0 < k22) :
    detK k k22 angle1 = k * k22 ∧ detK k k22 angle1 ≠ 0 := by
  refine ⟨detK_eq k k22 angle1, ?_⟩
  rw [detK_eq]
  exact (mul_pos hk hk22).ne'

/-- C2 witness: concrete instance `k = 2`, `k22 = 3`, `angle1 = 45`. -/
theorem hgrad_det_nonzero_witness :
    (0:ℝ) < 2 ∧ (0:ℝ) < 3 ∧
      (detK 2 3 45 = 2 * 3 ∧ detK 2 3 45 ≠ 0) :=
  ⟨by norm_num, by norm_num, hgrad_det_nonzero 2 3 45 (by norm_num) (by norm_num)⟩

/-- C1: for `k > 0`, `k22 > 0`, any `angle1`, `qx`, `qy`, the pair returned by
`hgrad` satisfies Darcy's Law `q = -K grad(h)` with the tensor components
computed in the code, and it is the unique such solution. -/
theorem hgrad_unique_solution (k k22 angle1 qx qy : ℝ)
    (hk : 0 < k) (hk22 : 0 < k22) :
    darcySolution k k22 angle1 qx qy
      (hgrad k k22 angle1 qx qy).1 (hgrad k k22 angle1 qx qy).2 ∧
    ∀ gx gy : ℝ, darcySolution k k22 angle1 qx qy gx gy →
      gx = (hgrad k k22 angle1 qx qy).1 ∧ gy = (hgrad k k22 angle1 qx qy).2 := by
  have hdet0 : detK k k22 angle1 ≠ 0 := (hgrad_det_nonzero k k22 angle1 hk hk22).2
  have hdet : kxx k k22 angle1 * kyy k k22 angle1 -
      kxy k k22 angle1 * kyx k k22 angle1 = detK k k22 angle1 := rfl
  constructor
  · constructor
    · rw [hgrad_fst, hgrad_snd]
      field_simp
      linear_combination (-qx) * hdet
    · rw [hgrad_fst, hgrad_snd]
      field_simp
      linear_combination (-qy) * hdet
  · intro gx gy hsol
    obtain ⟨h1, h2⟩ := hsol
    constructor
    · rw [hgrad_fst]
      rw [eq_div_iff hdet0]
      linear_combination kyy k k22 angle1 * h1 - kxy k k22 angle1 * h2 - gx * hdet
    · rw [hgrad_snd]
      rw [eq_div_iff hdet0]
      linear_combination (-(kyx k k22 angle1)) * h1 + kxx k k22 angle1 * h2 -
        gy * hdet

/-- C1 witness: concrete instance `k = 1`, `k22 = 2`, `angle1 = 30`,
`qx = 3`, `qy = 4`. -/
theorem hgrad_unique_solution_witness :
    (0:ℝ) < 1 ∧ (0:ℝ) < 2 ∧
      (darcySolution 1 2 30 3 4 (hgrad 1 2 30 3 4).1 (hgrad 1 2 30 3 4).2 ∧
       ∀ gx gy : ℝ, darcySolution 1 2 30 3 4 gx gy →
         gx = (hgrad 1 2 30 3 4).1 ∧ gy = (hgrad 1 2 30 3 4).2) :=
  ⟨by norm_num, by norm_num,
    hgrad_unique_solution 1 2 30 3 4 (by norm_num) (by norm_num)⟩

/-- C8: in the isotropic case `k22 = k` with `k > 0`, `hgrad` returns exactly
`(-qx / k, -qy / k)`, independent of the anisotropy angle `angle1`. -/
theorem hgrad_isotropic (k angle1 qx qy : ℝ) (hk : 0 < k) :
    hgrad k k angle1 qx qy = (-qx / k, -qy / k) := by
  have hk0 : k ≠ 0 := hk.ne'
  have hs := Real.sin_sq_add_cos_sq (angleOf angle1)
  have hxy : kxy k k angle1 = 0 := by simp [kxy]
  have hyx : kyx k k angle1 = 0 := by simp [kyx, kxy]
  have hyy : kyy k k angle1 = k := by
    simp only [kyy]
    linear_combination k * hs
  have hxx : kxx k k angle1 = k := by
    simp only [kxx]
    nlinarith [hs]
  have hdet : detK k k angle1 = k * k := detK_eq k k angle1
  rw [Prod.ext_iff, hgrad_fst, hgrad_snd, hdet, hxy, hyx, hxx, hyy]
  constructor
  · field_simp
    ring
  · field_simp
    ring

/-- C8 witness: concrete instance `k = 2`, `angle1 = 45`, `qx = 6`, `qy = 4`. -/
theorem hgrad_isotropic_witness :
    (0:ℝ) < 2 ∧ hgrad 2 2 45 6 4 = (-6 / 2, -4 / 2) :=
  ⟨by norm_num, hgrad_isotropic 2 45 6 4 (by norm_num)⟩

/-! ## The `add_chds` function (constant-head packages)

The notebook's `add_chds(gwf, hgradx=None, hgrady=None)` builds CHD stress
period data.  Each record in the Python code is `[0, i, head]` (layer 0,
cell id `i`, prescribed head); we embed a record as the pair `(i, head)`.
The cell id lists below are transcribed from the loops in `add_chds`. -/

/-- Cells of package CHD-LEFT: `[0, 7, 14, 18, 22, 26, 33]`. -/
def leftCellIds : List Nat := [0, 7, 14, 18, 22, 26, 33]

/-- Cells of package CHD-RIGHT: `[6, 13, 17, 21, 25, 32, 39]`. -/
def rightCellIds : List Nat := [6, 13, 17, 21, 25, 32, 39]

/-- Cells of package CHD-TOP (anisotropic branch): `[1, 2, 3, 4, 5]`. -/
def topCellIds : List Nat := [1, 2, 3, 4, 5]

/-- Cells of package CHD-BOTTOM (anisotropic branch): `[34, 35, 36, 37, 38]`. -/
def bottomCellIds : List Nat := [34, 35, 36, 37, 38]

/-- One CHD package as written by `flopy.mf6.ModflowGwfchd`: a package name
and the `(cell id, head)` records of its single stress period. -/
structure ChdPackage where
  pname : String
  records : List (Nat × ℝ)

/-- `hconst = hgradx * 50 + hgrady * 50 - 1` (anisotropic branch of
`add_chds`). -/
noncomputable def hconst (hgradx hgrady : ℝ) : ℝ := hgradx * 50 + hgrady * 50 - 1

/-- `head = hgradx * x + hgrady * y - hconst`, the head prescribed by
`add_chds` at position `(x, y)` in the anisotropic branch. -/
noncomputable def chdHeadAniso (hgradx hgrady x y : ℝ) : ℝ :=
  hgradx * x + hgrady * y - hconst hgradx hgrady

/-- The base branch of `add_chds` (`hgradx is None`): CHD-LEFT assigns head
`1.0` to each left cell, CHD-RIGHT assigns `0.0` to each right cell. -/
noncomputable def addChdsBase : List ChdPackage :=
  [ ⟨"CHD-LEFT", leftCellIds.map fun i => (i, (1.0 : ℝ))⟩,
    ⟨"CHD-RIGHT", rightCellIds.map fun i => (i, (0.0 : ℝ))⟩ ]

/-- The anisotropic branch of `add_chds`: four packages.  The loops
`for irow, i in enumerate(...)` / `for jcol, i in enumerate(...)` become
maps over `List.enum`; the hardwired positions are
left `x = 50`, right `x = 650`, `y = (6 - irow) * 100 + 50`,
top `y = 650`, bottom `y = 50`, `x = jcol * 100 + 150`. -/
noncomputable def addChdsAniso (hgradx hgrady : ℝ) : List ChdPackage :=
  [ ⟨"CHD-LEFT", leftCellIds.enum.map fun p =>
      (p.2, chdHeadAniso hgradx hgrady 50 ((6 - (p.1 : ℝ)) * 100 + 50))⟩,
    ⟨"CHD-RIGHT", rightCellIds.enum.map fun p =>
      (p.2, chdHeadAniso hgradx hgrady 650 ((6 - (p.1 : ℝ)) * 100 + 50))⟩,
    ⟨"CHD-TOP", topCellIds.enum.map fun p =>
      (p.2, chdHeadAniso hgradx hgrady ((p.1 : ℝ) * 100 + 150) 650)⟩,
    ⟨"CHD-BOTTOM", bottomCellIds.enum.map fun p =>
      (p.2, chdHeadAniso hgradx hgrady ((p.1 : ℝ) * 100 + 150) 50)⟩ ]

/-- The cell ids to which a package assigns constant heads. -/
def packageCells (p : ChdPackage) : List Nat := p.records.map Prod.fst

/-! ## The analytic head of `plot_results` -/

/-- Base case of `plot_results`: `slp = (1.0 - 0.0) / (50.0 - 650.0)` and
`heada = slp * (xc - 50.0) + 1.0` at a cell center with x-coordinate `xc`
(the code shifts `x = xcellcenters - 50.0` first). -/
noncomputable def headaBase (xc : ℝ) : ℝ :=
  ((1.0 - 0.0) / (50.0 - 650.0)) * (xc - 50.0) + 1.0

/-- Anisotropic case of `plot_results`:
`hconst = hgradx * 50 + hgrady * 50 - 1` and
`heada = hgradx * x + hgrady * y - hconst` at cell center `(x, y)`. -/
noncomputable def headaAniso (hgradx hgrady x y : ℝ) : ℝ :=
  hgradx * x + hgrady * y - (hgradx * 50 + hgrady * 50 - 1)

instance decidableListDisjoint (l1 l2 : List Nat) : Decidable (l1.Disjoint l2) :=
  List.decidableBAll (fun a => a ∉ l2) l1

/-- C9: in both branches of `add_chds` the packages' cell id sets are
pairwise disjoint, so no cell is given two constant-head values. -/
theorem chd_cells_disjoint :
    List.Pairwise List.Disjoint (addChdsBase.map packageCells) ∧
    ∀ hx hy : ℝ,
      List.Pairwise List.Disjoint ((addChdsAniso hx hy).map packageCells) := by
  constructor
  · have h : addChdsBase.map packageCells = [leftCellIds, rightCellIds] := rfl
    rw [h]
    decide
  · intro hx hy
    have h : (addChdsAniso hx hy).map packageCells =
        [leftCellIds, rightCellIds, topCellIds, bottomCellIds] := rfl
    rw [h]
    decide

/-- C10: the analytic head of `plot_results` agrees with the constant heads
of `add_chds` at the boundary cell centers.  Base case: `headaBase` is `1`
at `x = 50` and `0` at `x = 650`, and those are exactly the heads the base
branch assigns to the left and right columns.  Anisotropic case:
`plot_results` computes the identical linear function that `add_chds` uses. -/
theorem plot_chd_boundary_agreement :
    headaBase 50 = 1 ∧ headaBase 650 = 0 ∧
    addChdsBase = [ ⟨"CHD-LEFT", leftCellIds.map fun i => (i, headaBase 50)⟩,
                    ⟨"CHD-RIGHT", rightCellIds.map fun i => (i, headaBase 650)⟩ ] ∧
    ∀ hx hy x y : ℝ, headaAniso hx hy x y = chdHeadAniso hx hy x y := by
  have h1 : headaBase 50 = 1 := by norm_num [headaBase]
  have h0 : headaBase 650 = 0 := by norm_num [headaBase]
  refine ⟨h1, h0, ?_, ?_⟩
  · rw [h1, h0]
    norm_num [addChdsBase]
  · intro hx hy x y
    simp [headaAniso, chdHeadAniso, hconst]

/-! ## The notebook's mesh-building workflow

The notebook builds two `flopy.discretization.StructuredGrid` objects
(`sg1`, `sg2`), merges them with a single call
`gridprops = flopy.utils.cvfdutil.gridlist_to_disv_gridprops([sg1, sg2])`,
and `build_sim` passes `**gridprops` to `flopy.mf6.ModflowGwfdisv`.  We embed
the grid parameters and the mesh dataflow of those cells. -/

/-- The parameters of one `StructuredGrid` as constructed in the notebook
(uniform `delr`/`delc`; `idomainZero` lists the `(row, col)` cells that
`idomain` deactivates). -/
structure StructuredGridSpec where
  nlay : Nat
  nrow : Nat
  ncol : Nat
  delr : ℚ
  delc : ℚ
  xoff : ℚ
  yoff : ℚ
  idomainZero : List (Nat × Nat)
deriving DecidableEq

/-- `sg1`: 7 x 7 grid of 100 m cells with `idomain[:, 2:5, 2:5] = 0`. -/
def sg1 : StructuredGridSpec :=
  { nlay := 1, nrow := 7, ncol := 7, delr := 100, delc := 100,
    xoff := 0, yoff := 0,
    idomainZero := [(2, 2), (2, 3), (2, 4), (3, 2), (3, 3), (3, 4),
                    (4, 2), (4, 3), (4, 4)] }

/-- `sg2`: 9 x 9 grid of 100/3 m cells offset by `(200, 200)`, full idomain. -/
def sg2 : StructuredGridSpec :=
  { nlay := 1, nrow := 9, ncol := 9, delr := 100 / 3, delc := 100 / 3,
    xoff := 200, yoff := 200, idomainZero := [] }

/-- One step of the notebook's mesh dataflow. -/
inductive MeshStep where
  /-- `name = flopy.discretization.StructuredGrid(...)` -/
  | buildStructuredGrid (varName : String) (grid : StructuredGridSpec)
  /-- `resultVar = flopy.utils.cvfdutil.gridlist_to_disv_gridprops(inputs)` -/
  | mergeGridListToDisv (inputs : List String) (resultVar : String)
  /-- `flopy.mf6.ModflowGwfdisv(gwf, ..., **sourceVar)` inside `build_sim` -/
  | disvFromGridprops (sourceVar : String)
deriving DecidableEq

/-- The mesh-related steps of the notebook, in execution order. -/
def notebookMeshSteps : List MeshStep :=
  [ .buildStructuredGrid "sg1" sg1,
    .buildStructuredGrid "sg2" sg2,
    .mergeGridListToDisv ["sg1", "sg2"] "gridprops",
    .disvFromGridprops "gridprops" ]

/-- The structured grids built by a step list, with their variable names. -/
def builtGrids (steps : List MeshStep) : List (String × StructuredGridSpec) :=
  steps.filterMap fun s =>
    match s with
    | .buildStructuredGrid n g => some (n, g)
    | _ => none

/-- The `gridlist_to_disv_gridprops` calls of a step list. -/
def mergeCalls (steps : List MeshStep) : List (List String × String) :=
  steps.filterMap fun s =>
    match s with
    | .mergeGridListToDisv inputs r => some (inputs, r)
    | _ => none

/-- The mesh sources handed to the DISV package by a step list. -/
def disvSources (steps : List MeshStep) : List String :=
  steps.filterMap fun s =>
    match s with
    | .disvFromGridprops v => some v
    | _ => none

/-- C3: the notebook builds exactly the two structured grids `sg1` and `sg2`,
merges them by the single call `gridlist_to_disv_gridprops([sg1, sg2])` into
`gridprops`, and `gridprops` is the only mesh source passed to the DISV
package. -/
theorem notebook_mesh_pipeline :
    builtGrids notebookMeshSteps = [("sg1", sg1), ("sg2", sg2)] ∧
    mergeCalls notebookMeshSteps = [(["sg1", "sg2"], "gridprops")] ∧
    disvSources notebookMeshSteps = ["gridprops"] := by
  refine ⟨rfl, rfl, rfl⟩

/-! ## The `data/parallel/slurm.batch` script

Transcription of the batch script: eight `#SBATCH` directives, then the
commands `module load modflow/6.6.0.dev0`, `srun mf6 -p`, and
`zip ../../archive/1803_1804_001p_$(date -Ihours) ngwm.ims mfsim.lst
ims.inner.csv`. -/

/-- One `#SBATCH` directive. -/
inductive SbatchDirective where
  | jobName (v : String)
  | nodes (n : Nat)
  | ntasks (n : Nat)
  | account (v : String)
  | timeLimit (hh mm ss : Nat)
  | outputPath (v : String)
  | mailType (v : String)
  | mailUser (v : String)
deriving DecidableEq

/-- A shell word: a literal, a command substitution `$(cmd)`, or the
concatenation of adjacent parts within one word. -/
inductive ShellWord where
  | lit (s : String)
  | cmdSub (cmd : String)
  | cat (a b : ShellWord)
deriving DecidableEq

/-- A command of the batch script body.  `control` stands for any shell
control-flow construct (`if`, `while`, `until`, `trap`, ...); the script
contains none, which `slurm_error_delegation` makes precise. -/
inductive BatchCommand where
  | simple (name : String) (args : List ShellWord)
  | control (keyword : String)
deriving DecidableEq

/-- The `#SBATCH` directives of `slurm.batch`, in file order. -/
def slurmDirectives : List SbatchDirective :=
  [ .jobName "1803_1804",
    .nodes 1,
    .ntasks 1,
    .account "impd",
    .timeLimit 0 10 0,
    .outputPath "slurm-%j.out",
    .mailType "FAIL",
    .mailUser "jdhughes@usgs.gov" ]

/-- The first argument of the `zip` command:
`../../archive/1803_1804_001p_$(date -Ihours)`. -/
def archiveWord : ShellWord :=
  .cat (.lit "../../archive/1803_1804_001p_") (.cmdSub "date -Ihours")

/-- The command body of `slurm.batch`, in file order. -/
def slurmCommands : List BatchCommand :=
  [ .simple "module" [.lit "load", .lit "modflow/6.6.0.dev0"],
    .simple "srun" [.lit "mf6", .lit "-p"],
    .simple "zip"
      [archiveWord, .lit "ngwm.ims", .lit "mfsim.lst", .lit "ims.inner.csv"] ]

def isJobName : SbatchDirective → Bool
  | .jobName _ => true
  | _ => false

def isNodes : SbatchDirective → Bool
  | .nodes _ => true
  | _ => false

def isNtasks : SbatchDirective → Bool
  | .ntasks _ => true
  | _ => false

def isTimeLimit : SbatchDirective → Bool
  | .timeLimit _ _ _ => true
  | _ => false

def isOutputPath : SbatchDirective → Bool
  | .outputPath _ => true
  | _ => false

def isMailType : SbatchDirective → Bool
  | .mailType _ => true
  | _ => false

def isMailUser : SbatchDirective → Bool
  | .mailUser _ => true
  | _ => false

/-- A simulator invocation: any `srun` command. -/
def isSrun : BatchCommand → Bool
  | .simple "srun" _ => true
  | _ => false

/-- The archiving step: any `zip` command. -/
def isZip : BatchCommand → Bool
  | .simple "zip" _ => true
  | _ => false

/-- An environment-module load: any `module` command. -/
def isModuleCmd : BatchCommand → Bool
  | .simple "module" _ => true
  | _ => false

/-- A plain simple command (no shell control flow). -/
def isSimpleCmd : BatchCommand → Bool
  | .simple _ _ => true
  | .control _ => false

/-- C4: the batch script requests exactly one node and one task, declares
the wall-clock limit `00:10:00`, runs the simulator exactly once
(`srun mf6 -p`), archives exactly once, and the archiving step comes after
the run. -/
theorem slurm_single_run :
    slurmDirectives.filter isNodes = [.nodes 1] ∧
    slurmDirectives.filter isNtasks = [.ntasks 1] ∧
    slurmDirectives.filter isTimeLimit = [.timeLimit 0 10 0] ∧
    slurmCommands.filter isSrun = [.simple "srun" [.lit "mf6", .lit "-p"]] ∧
    (slurmCommands.filter isZip).length = 1 ∧
    slurmCommands.findIdx isSrun < slurmCommands.findIdx isZip := by
  decide

/-- C5: the archiving step is a single `zip` naming exactly the three output
files `ngwm.ims`, `mfsim.lst`, `ims.inner.csv`; the archive name embeds the
current date through `$(date -Ihours)` and lives under the sibling directory
`../../archive/`. -/
theorem slurm_archive_step :
    slurmCommands.filter isZip =
      [.simple "zip"
        [archiveWord, .lit "ngwm.ims", .lit "mfsim.lst", .lit "ims.inner.csv"]] ∧
    archiveWord =
      .cat (.lit ("../../archive/" ++ "1803_1804_001p_")) (.cmdSub "date -Ihours") := by
  decide

/-- C6: the script declares a job name, node and task counts, a time limit,
an output path and a failure-notification address, and loads exactly one
environment module, `modflow/6.6.0.dev0`, before the simulator run. -/
theorem slurm_directives_and_module :
    slurmDirectives.filter isJobName = [.jobName "1803_1804"] ∧
    (slurmDirectives.filter isNodes).length = 1 ∧
    (slurmDirectives.filter isNtasks).length = 1 ∧
    (slurmDirectives.filter isTimeLimit).length = 1 ∧
    slurmDirectives.filter isOutputPath = [.outputPath "slurm-%j.out"] ∧
    slurmDirectives.filter isMailUser = [.mailUser "jdhughes@usgs.gov"] ∧
    slurmCommands.filter isModuleCmd =
      [.simple "module" [.lit "load", .lit "modflow/6.6.0.dev0"]] ∧
    slurmCommands.findIdx isModuleCmd < slurmCommands.findIdx isSrun := by
  decide

/-- C7: mail notification is requested for the FAIL event type only, to a
single address, and the script body is a flat sequence of simple commands
with a single simulator run: it contains no control flow, so no
error-checking, retry or recovery logic. -/
theorem slurm_error_delegation :
    slurmDirectives.filter isMailType = [.mailType "FAIL"] ∧
    (slurmDirectives.filter isMailUser).length = 1 ∧
    slurmCommands.all isSimpleCmd = true ∧
    (slurmCommands.filter isSrun).length = 1 := by
  decide

end GW3099
